import Mathlib

/-!
Shallow embedding of `src/dev/bus/pci/bus_mgr/bridge.cpp` (the lk kernel's
PCI bridge-probe algorithm and address-window decoder), together with
theorems checking the natural-language specification against it.

Modelling conventions:
* machine integers become `Nat`; every arithmetic step of the source
  (`>>`, `<<`, `|`, `&`, comparisons) is translated literally.  The C
  expressions never overflow their 32/64-bit types for in-range register
  fields, so no `% 2^w` is needed; theorems carry explicit width bounds
  (`< 2^16`, `< 2^32`) where a claim depends on the register field width.
* the external collaborators (`pci_read_config_half`, `pci_read_config_byte`,
  `pci_read_config`, `bus::probe`) are an oracle record `ProbeEnv`; each
  returns a status and a value, exactly as the C out-parameter style does.
* `bridge::probe` becomes a pure function from the oracle and the location
  to a result record: the returned `status_t`, the final value of
  `*out_bridge` (`none` models the null pointer), and the ordered trace of
  external calls and allocation events it performed.
* the downstream `bus` objects produced by the external bus-scan
  collaborator are opaque to this core; they are modelled as `Nat` handles.
-/

namespace pci

/-- `pci_location_t`: (segment, bus, device, function) configuration-space
address.  Modelled from the spec: the struct lives in `dev/bus/pci.h`,
which is not under `src/`; the spec's §3 "Location" gives its fields. -/
structure pci_location_t where
  segment : Nat
  bus : Nat
  dev : Nat
  fn : Nat
deriving DecidableEq, Repr

/-- Type-1 (bridge) header fields of the PCI configuration snapshot that
`bridge.cpp` reads.  Modelled from the spec: the struct layout is in
`dev/bus/pci.h` (not under `src/`); §3 lists exactly these fields
(bus numbers and the raw base/limit register pairs).  Register widths are
not baked into the type; theorems state them as explicit bounds. -/
structure pci_config_type1 where
  primary_bus : Nat
  secondary_bus : Nat
  subordinate_bus : Nat
  io_base : Nat
  io_limit : Nat
  memory_base : Nat
  memory_limit : Nat
  prefetchable_memory_base : Nat
  prefetchable_memory_limit : Nat
  prefetchable_base_upper : Nat
  prefetchable_limit_upper : Nat
deriving DecidableEq, Repr

/-- The full configuration snapshot `pci_read_config` fills in.
Modelled from the spec (§3): vendor/device ids plus the type-1 fields. -/
structure pci_config_t where
  vendor_id : Nat
  device_id : Nat
  type1 : pci_config_type1
deriving DecidableEq, Repr

/-- Handle for a downstream `bus` object.  The bus-scan collaborator
(`bus::probe`, `bus.cpp`) is external to this core, so buses are opaque
tokens. -/
abbrev busHandle := Nat

/-- `status_t` is a signed integer status; `NO_ERROR` is 0.  Modelled from
the spec (§6): success is 0, errors are negative. -/
def NO_ERROR : Int := 0

/-- Modelled from the spec: `ERR_NOT_FOUND` comes from `lk/err.h` (not
under `src/`); it is a fixed negative error code distinct from success. -/
def ERR_NOT_FOUND : Int := -2

/-- Config-space register offset of the vendor-id half-word.  Modelled
from the spec / PCI convention (`dev/bus/pci.h` is not under `src/`). -/
def PCI_CONFIG_VENDOR_ID : Nat := 0x0

/-- Config-space register offset of the header-type byte.  Modelled from
the spec / PCI convention (`dev/bus/pci.h` is not under `src/`). -/
def PCI_CONFIG_HEADER_TYPE : Nat := 0xe

/-- The `bridge` object of `bridge.cpp`: its location, the (non-owning)
parent-bus back reference, the configuration snapshot read into
`config_`, and the optional downstream bus set by `add_bus`.  The BAR
array and capability data are filled in by external collaborators
(`device.cpp`), not by the code under `src/`, and are omitted. -/
structure bridge where
  loc_ : pci_location_t
  parent_bus_ : Option busHandle
  config_ : pci_config_t
  secondary_bus_ : Option busHandle
deriving DecidableEq, Repr

/-- `bridge::secondary_bus()` accessor. -/
def bridge.secondary_bus (b : bridge) : Nat := b.config_.type1.secondary_bus

/-- `bridge::subordinate_bus()` accessor. -/
def bridge.subordinate_bus (b : bridge) : Nat := b.config_.type1.subordinate_bus

/-- `bridge::range<T>`: a closed `[base, limit]` interval. -/
structure range where
  base : Nat
  limit : Nat
deriving DecidableEq, Repr

/-- `bridge::io_range()` from bridge.cpp lines 133-141:
if `io_limit < io_base` return `{0, 0}`, else
`{ (io_base >> 4) << 12, ((io_limit >> 4) << 12) | 0xfff }`. -/
def bridge.io_range (b : bridge) : range :=
  if b.config_.type1.io_limit < b.config_.type1.io_base then
    { base := 0, limit := 0 }
  else
    { base := (b.config_.type1.io_base >>> 4) <<< 12,
      limit := ((b.config_.type1.io_limit >>> 4) <<< 12) ||| 0xfff }

/-- `bridge::mem_range()` from bridge.cpp lines 143-150:
if `memory_limit < memory_base` return `{0, 0}`, else
`{ (memory_base >> 4) << 20, ((memory_limit >> 4) << 20) | 0xfffff }`. -/
def bridge.mem_range (b : bridge) : range :=
  if b.config_.type1.memory_limit < b.config_.type1.memory_base then
    { base := 0, limit := 0 }
  else
    { base := (b.config_.type1.memory_base >>> 4) <<< 20,
      limit := ((b.config_.type1.memory_limit >>> 4) <<< 20) ||| 0xfffff }

/-- `bridge::prefetch_range()` from bridge.cpp lines 152-170:
degenerate check on the raw fields, then 1 MiB-granule decode; when the
low nibble of the raw base field is 1 the two 32-bit upper-extension
registers are OR'd in at bit 32. -/
def bridge.prefetch_range (b : bridge) : range :=
  if b.config_.type1.prefetchable_memory_limit < b.config_.type1.prefetchable_memory_base then
    { base := 0, limit := 0 }
  else
    let is_64 := (b.config_.type1.prefetchable_memory_base &&& 0xf) == 1
    let base0 := (b.config_.type1.prefetchable_memory_base >>> 4) <<< 20
    let base := if is_64 then base0 ||| (b.config_.type1.prefetchable_base_upper <<< 32) else base0
    let limit0 := ((b.config_.type1.prefetchable_memory_limit >>> 4) <<< 20) ||| 0xfffff
    let limit := if is_64 then limit0 ||| (b.config_.type1.prefetchable_limit_upper <<< 32) else limit0
    { base := base, limit := limit }

/-- One external call or allocation event performed by `bridge::probe`,
in program order. -/
inductive ProbeEvent where
  | readVendorId
  | readHeaderType
  | allocBridge
  | readConfig
  | deleteBridge
  | probeCapabilities
  | busProbe (segment : Nat) (busnum : Nat)
  | addBus
  | addToGlobalList
deriving DecidableEq, Repr

/-- Oracle for the external collaborators consumed by `bridge::probe`.
Each function returns the `status_t` and the value the C out-parameter
would receive. -/
structure ProbeEnv where
  pci_read_config_half : pci_location_t → Nat → Int × Nat
  pci_read_config_byte : pci_location_t → Nat → Int × Nat
  pci_read_config : pci_location_t → Int × pci_config_t
  bus_probe : pci_location_t → bridge → Int × busHandle

/-- Result of `bridge::probe`: the returned `status_t`, the final value of
`*out_bridge` (`none` = null), and the trace of events in the order the
code performs them. -/
structure ProbeResult where
  status : Int
  out_bridge : Option bridge
  events : List ProbeEvent
deriving DecidableEq, Repr

/-- `bridge::probe` from bridge.cpp lines 34-96, translated step by step:
null `*out_bridge`; read vendor id (any non-`NO_ERROR` status or the
all-ones value yields `ERR_NOT_FOUND`); read the header-type byte
(non-`NO_ERROR` yields `ERR_NOT_FOUND`); allocate the bridge and read its
full type-1 configuration (a negative status deletes the bridge and
propagates the error); probe capabilities (external, best-effort);
publish the bridge through `*out_bridge`; then, iff
`secondary_bus > 0 && subordinate_bus >= secondary_bus`, probe the
secondary bus (a negative status propagates while the bridge stays
published), attach the new bus with `add_bus` and register it globally. -/
def bridge.probe (env : ProbeEnv) (loc : pci_location_t) (parent_bus : Option busHandle) :
    ProbeResult :=
  let r1 := env.pci_read_config_half loc PCI_CONFIG_VENDOR_ID
  if r1.1 ≠ NO_ERROR then
    { status := ERR_NOT_FOUND, out_bridge := none, events := [.readVendorId] }
  else if r1.2 = 0xffff then
    { status := ERR_NOT_FOUND, out_bridge := none, events := [.readVendorId] }
  else
    let r2 := env.pci_read_config_byte loc PCI_CONFIG_HEADER_TYPE
    if r2.1 ≠ NO_ERROR then
      { status := ERR_NOT_FOUND, out_bridge := none,
        events := [.readVendorId, .readHeaderType] }
    else
      let r3 := env.pci_read_config loc
      if r3.1 < 0 then
        { status := r3.1, out_bridge := none,
          events := [.readVendorId, .readHeaderType, .allocBridge, .readConfig,
                     .deleteBridge] }
      else
        let br : bridge :=
          { loc_ := loc, parent_bus_ := parent_bus, config_ := r3.2,
            secondary_bus_ := none }
        let evs := [ProbeEvent.readVendorId, .readHeaderType, .allocBridge, .readConfig,
                    .probeCapabilities]
        if br.secondary_bus > 0 ∧ br.subordinate_bus ≥ br.secondary_bus then
          let bus_location : pci_location_t :=
            { segment := loc.segment, bus := br.config_.type1.secondary_bus,
              dev := 0, fn := 0 }
          let r4 := env.bus_probe bus_location br
          if r4.1 < 0 then
            { status := r4.1, out_bridge := some br,
              events := evs ++ [.busProbe loc.segment br.config_.type1.secondary_bus] }
          else
            { status := NO_ERROR,
              out_bridge := some { br with secondary_bus_ := some r4.2 },
              events := evs ++ [.busProbe loc.segment br.config_.type1.secondary_bus,
                                .addBus, .addToGlobalList] }
        else
          { status := NO_ERROR, out_bridge := some br, events := evs }

/-! ### Bitwise helper lemmas -/

/-- Masking a 16-bit value with `0xfff0` clears exactly its low nibble. -/
lemma land_fff0_eq (b : Nat) (hb : b < 2 ^ 16) : b &&& 0xfff0 = (b >>> 4) <<< 4 := by
  apply Nat.eq_of_testBit_eq
  intro i
  rw [Nat.testBit_and, Nat.testBit_shiftLeft, Nat.testBit_shiftRight]
  by_cases h4 : 4 ≤ i
  · by_cases h16 : i < 16
    · have hm : Nat.testBit 0xfff0 i = true := by interval_cases i <;> decide
      have hi : 4 + (i - 4) = i := by omega
      simp [hm, h4, hi]
    · have hb' : Nat.testBit b i = false :=
        Nat.testBit_lt_two_pow
          (lt_of_lt_of_le hb (Nat.pow_le_pow_right (by norm_num) (le_of_not_lt h16)))
      have hb'' : Nat.testBit b (4 + (i - 4)) = false := by
        have hi : 4 + (i - 4) = i := by omega
        rw [hi]; exact hb'
      simp [hb', hb'']
  · have hm : Nat.testBit 0xfff0 i = false := by interval_cases i <;> decide
    simp [hm, h4]

/-- A value never shrinks under bitwise or. -/
lemma left_le_lor (a b : Nat) : a ≤ a ||| b := by
  have habs : a &&& (a ||| b) = a := by
    apply Nat.eq_of_testBit_eq
    intro i
    rw [Nat.testBit_and, Nat.testBit_or]
    cases a.testBit i <;> simp
  calc a = a &&& (a ||| b) := habs.symm
    _ ≤ a ||| b := Nat.and_le_right

/-- Oring in a mask forces all of the mask's bits to one. -/
lemma lor_land_self (x m : Nat) : (x ||| m) &&& m = m := by
  apply Nat.eq_of_testBit_eq
  intro i
  rw [Nat.testBit_and, Nat.testBit_or]
  cases m.testBit i <;> simp

/-- Shifting right by `n` recovers the upper word of a disjoint or. -/
lemma lor_shiftLeft_shiftRight (a b n : Nat) (ha : a < 2 ^ n) :
    (a ||| b <<< n) >>> n = b := by
  apply Nat.eq_of_testBit_eq
  intro i
  rw [Nat.testBit_shiftRight, Nat.testBit_or, Nat.testBit_shiftLeft]
  have ha' : a.testBit (n + i) = false :=
    Nat.testBit_lt_two_pow
      (lt_of_lt_of_le ha (Nat.pow_le_pow_right (by norm_num) (Nat.le_add_right n i)))
  have hi : n + i - n = i := by omega
  simp [ha', hi]

/-- The low 32 bits of a decoded 1 MiB-granule base fit in 32 bits. -/
lemma decoded_base20_lt (b : Nat) (hb : b < 2 ^ 16) : (b >>> 4) <<< 20 < 2 ^ 32 := by
  rw [Nat.shiftRight_eq_div_pow, Nat.shiftLeft_eq]
  have : b / 2 ^ 4 < 2 ^ 12 := Nat.div_lt_of_lt_mul (by omega)
  calc b / 2 ^ 4 * 2 ^ 20 < 2 ^ 12 * 2 ^ 20 := by
        exact Nat.mul_lt_mul_of_lt_of_le this (le_refl _) (by norm_num)
    _ = 2 ^ 32 := by norm_num

/-- The low 32 bits of a decoded 1 MiB-granule limit fit in 32 bits. -/
lemma decoded_limit20_lt (l : Nat) (hl : l < 2 ^ 16) :
    ((l >>> 4) <<< 20) ||| 0xfffff < 2 ^ 32 :=
  Nat.or_lt_two_pow (decoded_base20_lt l hl) (by norm_num)

/-- Shift-decoding is monotone in the raw field. -/
lemma decode_shift_mono (b l k : Nat) (h : b ≤ l) : (b >>> 4) <<< k ≤ (l >>> 4) <<< k := by
  rw [Nat.shiftRight_eq_div_pow, Nat.shiftRight_eq_div_pow, Nat.shiftLeft_eq,
    Nat.shiftLeft_eq]
  exact Nat.mul_le_mul_right _ (Nat.div_le_div_right h)

/-- The decoded io window of any bridge is never a negative-width interval. -/
lemma io_range_base_le_limit (b : bridge) : b.io_range.base ≤ b.io_range.limit := by
  unfold bridge.io_range
  split
  · exact le_refl 0
  · rename_i h
    have hle : b.config_.type1.io_base ≤ b.config_.type1.io_limit := le_of_not_lt h
    exact le_trans (decode_shift_mono _ _ 12 hle) (left_le_lor _ _)

/-- The decoded memory window of any bridge is never a negative-width interval. -/
lemma mem_range_base_le_limit (b : bridge) : b.mem_range.base ≤ b.mem_range.limit := by
  unfold bridge.mem_range
  split
  · exact le_refl 0
  · rename_i h
    have hle : b.config_.type1.memory_base ≤ b.config_.type1.memory_limit := le_of_not_lt h
    exact le_trans (decode_shift_mono _ _ 20 hle) (left_le_lor _ _)

/-- Composing a nibble shift with the remaining 16 bits of shift gives the
full 1 MiB shift. -/
lemma shiftLeft4_16 (x : Nat) : (x <<< 4) <<< 16 = x <<< 20 := by
  rw [Nat.shiftLeft_eq, Nat.shiftLeft_eq, Nat.shiftLeft_eq, mul_assoc]
  norm_num

/-- Concrete type-1 configurations used to instantiate hypotheses of the
claim theorems on concrete bridges. -/
def type1W : pci_config_type1 :=
  { primary_bus := 0, secondary_bus := 2, subordinate_bus := 5,
    io_base := 0x21, io_limit := 0x31,
    memory_base := 0x1230, memory_limit := 0x4560,
    prefetchable_memory_base := 0x1231, prefetchable_memory_limit := 0x4560,
    prefetchable_base_upper := 0x12345678, prefetchable_limit_upper := 0x9abcdef0 }

def cfgW : pci_config_t := { vendor_id := 0x8086, device_id := 0x1237, type1 := type1W }

def locW : pci_location_t := { segment := 0, bus := 0, dev := 3, fn := 0 }

def brW : bridge :=
  { loc_ := locW, parent_bus_ := none, config_ := cfgW, secondary_bus_ := none }

/-- Configuration whose three raw windows are all inverted (limit < base). -/
def type1Inv : pci_config_type1 :=
  { type1W with io_base := 0xf1, io_limit := 0x01,
                memory_base := 0x4560, memory_limit := 0x1230,
                prefetchable_memory_base := 0x4561, prefetchable_memory_limit := 0x1230 }

def brInv : bridge :=
  { brW with config_ := { cfgW with type1 := type1Inv } }

/-- Configuration with a 32-bit prefetchable window (low nibble 0). -/
def brPref32 : bridge :=
  { brW with config_ :=
      { cfgW with type1 := { type1W with prefetchable_memory_base := 0x1230 } } }

/-- Configuration whose 64-bit prefetchable window decodes inverted: raw
base = raw limit = 1 (low nibble 1, so the upper-extension registers are
used) with base_upper 5 > limit_upper 3.  The degenerate check of
`bridge::prefetch_range` compares only the raw 16-bit fields, so the
decoded interval comes out with base above limit. -/
def type1PrefInv : pci_config_type1 :=
  { primary_bus := 0, secondary_bus := 2, subordinate_bus := 5,
    io_base := 0, io_limit := 0, memory_base := 0, memory_limit := 0,
    prefetchable_memory_base := 1, prefetchable_memory_limit := 1,
    prefetchable_base_upper := 5, prefetchable_limit_upper := 3 }

def cfgPrefInv : pci_config_t :=
  { vendor_id := 0x8086, device_id := 0x1237, type1 := type1PrefInv }

def brPrefInv : bridge :=
  { loc_ := locW, parent_bus_ := none, config_ := cfgPrefInv, secondary_bus_ := none }

/-- C2: for raw 16-bit memory base/limit fields `b ≤ l`, the decoded memory
range is `(b & 0xfff0)` shifted to 1 MiB alignment and `(l & 0xfff0)`
shifted to 1 MiB alignment OR'd with `0xfffff`. -/
theorem mem_range_decode_formula (b : bridge)
    (hb : b.config_.type1.memory_base < 2 ^ 16)
    (hl : b.config_.type1.memory_limit < 2 ^ 16)
    (hle : b.config_.type1.memory_base ≤ b.config_.type1.memory_limit) :
    b.mem_range =
      { base := (b.config_.type1.memory_base &&& 0xfff0) <<< 16,
        limit := ((b.config_.type1.memory_limit &&& 0xfff0) <<< 16) ||| 0xfffff } := by
  unfold bridge.mem_range
  rw [if_neg (not_lt.mpr hle), land_fff0_eq _ hb, land_fff0_eq _ hl,
    shiftLeft4_16, shiftLeft4_16]

/-- C2 witness: the formula evaluated on the concrete bridge `brW`. -/
theorem mem_range_decode_formula_witness :
    brW.mem_range =
      { base := ((0x1230 : Nat) &&& 0xfff0) <<< 16,
        limit := (((0x4560 : Nat) &&& 0xfff0) <<< 16) ||| 0xfffff } :=
  mem_range_decode_formula brW (by decide) (by decide) (by decide)

/-- C3 counterexample: the clause "no input ever decodes to a
negative-width interval" fails for `bridge::prefetch_range`.  With raw
prefetchable base = limit = 1 (low nibble 1) and base_upper 5 >
limit_upper 3, the raw fields are not inverted, yet the decoded window is
base `0x500000000` > limit `0x3000fffff`. -/
theorem prefetch_range_negative_width_cex :
    brPrefInv.config_.type1.prefetchable_memory_base ≤
      brPrefInv.config_.type1.prefetchable_memory_limit ∧
    brPrefInv.prefetch_range.base = 0x500000000 ∧
    brPrefInv.prefetch_range.limit = 0x3000fffff ∧
    brPrefInv.prefetch_range.limit < brPrefInv.prefetch_range.base := by
  decide

/-- C3 amended: each of the three decoders maps a raw register pair with
`limit < base` to the canonical empty range `{0, 0}`, and `io_range` and
`mem_range` never decode to a negative-width interval on any input; the
prefetchable decoder is excepted, since a 64-bit window with inverted
upper-extension registers decodes to base > limit. -/
theorem decoders_empty_and_nonnegative_width (b : bridge) :
    (b.config_.type1.io_limit < b.config_.type1.io_base →
      b.io_range = { base := 0, limit := 0 }) ∧
    (b.config_.type1.memory_limit < b.config_.type1.memory_base →
      b.mem_range = { base := 0, limit := 0 }) ∧
    (b.config_.type1.prefetchable_memory_limit < b.config_.type1.prefetchable_memory_base →
      b.prefetch_range = { base := 0, limit := 0 }) ∧
    b.io_range.base ≤ b.io_range.limit ∧
    b.mem_range.base ≤ b.mem_range.limit := by
  refine ⟨fun h => ?_, fun h => ?_, fun h => ?_, io_range_base_le_limit b,
    mem_range_base_le_limit b⟩ <;>
    simp [bridge.io_range, bridge.mem_range, bridge.prefetch_range, h]

/-- C3 witness: all three decoders on the concrete inverted bridge, plus
the io/mem non-negative-width facts there. -/
theorem decoders_empty_and_nonnegative_width_witness :
    (brInv.io_range = { base := 0, limit := 0 } ∧
     brInv.mem_range = { base := 0, limit := 0 } ∧
     brInv.prefetch_range = { base := 0, limit := 0 }) ∧
    brInv.io_range.base ≤ brInv.io_range.limit ∧
    brInv.mem_range.base ≤ brInv.mem_range.limit := by
  have h := decoders_empty_and_nonnegative_width brInv
  exact ⟨⟨h.1 (by decide), h.2.1 (by decide), h.2.2.1 (by decide)⟩,
    h.2.2.2.1, h.2.2.2.2⟩

/-- C10: for non-inverted raw io and memory register pairs the decoders are
monotone (decoded base ≤ decoded limit), the decoded base is 4 KiB- resp.
1 MiB-aligned, and the decoded limit has its low 12 resp. 20 bits all-ones. -/
theorem io_mem_range_monotone_and_granular (b : bridge)
    (hio : b.config_.type1.io_base ≤ b.config_.type1.io_limit)
    (hmem : b.config_.type1.memory_base ≤ b.config_.type1.memory_limit) :
    b.io_range.base ≤ b.io_range.limit ∧
    b.mem_range.base ≤ b.mem_range.limit ∧
    b.io_range.base % 2 ^ 12 = 0 ∧
    b.mem_range.base % 2 ^ 20 = 0 ∧
    b.io_range.limit &&& 0xfff = 0xfff ∧
    b.mem_range.limit &&& 0xfffff = 0xfffff := by
  refine ⟨io_range_base_le_limit b, mem_range_base_le_limit b, ?_, ?_, ?_, ?_⟩
  · unfold bridge.io_range
    rw [if_neg (not_lt.mpr hio)]
    show ((b.config_.type1.io_base >>> 4) <<< 12) % 2 ^ 12 = 0
    rw [Nat.shiftLeft_eq]
    exact Nat.mul_mod_left _ _
  · unfold bridge.mem_range
    rw [if_neg (not_lt.mpr hmem)]
    show ((b.config_.type1.memory_base >>> 4) <<< 20) % 2 ^ 20 = 0
    rw [Nat.shiftLeft_eq]
    exact Nat.mul_mod_left _ _
  · unfold bridge.io_range
    rw [if_neg (not_lt.mpr hio)]
    exact lor_land_self _ _
  · unfold bridge.mem_range
    rw [if_neg (not_lt.mpr hmem)]
    exact lor_land_self _ _

/-- C10 witness: the monotonicity and granularity facts on `brW`. -/
theorem io_mem_range_monotone_and_granular_witness :
    brW.io_range.base ≤ brW.io_range.limit ∧
    brW.mem_range.base ≤ brW.mem_range.limit ∧
    brW.io_range.base % 2 ^ 12 = 0 ∧
    brW.mem_range.base % 2 ^ 20 = 0 ∧
    brW.io_range.limit &&& 0xfff = 0xfff ∧
    brW.mem_range.limit &&& 0xfffff = 0xfffff :=
  io_mem_range_monotone_and_granular brW (by decide) (by decide)

/-- C4: for a non-inverted prefetchable window, a base-field low nibble of 1
makes the decoded base/limit carry the upper-extension registers in bits 32
and above, while any other low nibble leaves all bits above 31 zero. -/
theorem prefetch_range_upper_extension (b : bridge)
    (hb : b.config_.type1.prefetchable_memory_base < 2 ^ 16)
    (hl : b.config_.type1.prefetchable_memory_limit < 2 ^ 16)
    (_hbu : b.config_.type1.prefetchable_base_upper < 2 ^ 32)
    (_hlu : b.config_.type1.prefetchable_limit_upper < 2 ^ 32)
    (hle : b.config_.type1.prefetchable_memory_base ≤
      b.config_.type1.prefetchable_memory_limit) :
    ((b.config_.type1.prefetchable_memory_base &&& 0xf = 1) →
      b.prefetch_range.base >>> 32 = b.config_.type1.prefetchable_base_upper ∧
      b.prefetch_range.limit >>> 32 = b.config_.type1.prefetchable_limit_upper) ∧
    ((b.config_.type1.prefetchable_memory_base &&& 0xf ≠ 1) →
      b.prefetch_range.base < 2 ^ 32 ∧ b.prefetch_range.limit < 2 ^ 32) := by
  unfold bridge.prefetch_range
  rw [if_neg (not_lt.mpr hle)]
  constructor
  · intro h1
    simp only [h1, beq_self_eq_true, if_pos]
    exact ⟨lor_shiftLeft_shiftRight _ _ 32 (decoded_base20_lt _ hb),
           lor_shiftLeft_shiftRight _ _ 32 (decoded_limit20_lt _ hl)⟩
  · intro h1
    have h1' : ((b.config_.type1.prefetchable_memory_base &&& 0xf) == 1) = false := by
      simpa using h1
    simp only [h1', Bool.false_eq_true, if_neg, ite_false]
    exact ⟨decoded_base20_lt _ hb, decoded_limit20_lt _ hl⟩

/-- C4 witness: the 64-bit case on `brW` (low nibble 1) and the 32-bit case
on `brPref32` (low nibble 0). -/
theorem prefetch_range_upper_extension_witness :
    (brW.prefetch_range.base >>> 32 = 0x12345678 ∧
     brW.prefetch_range.limit >>> 32 = 0x9abcdef0) ∧
    (brPref32.prefetch_range.base < 2 ^ 32 ∧ brPref32.prefetch_range.limit < 2 ^ 32) :=
  ⟨(prefetch_range_upper_extension brW (by decide) (by decide) (by decide) (by decide)
      (by decide)).1 (by decide),
   (prefetch_range_upper_extension brPref32 (by decide) (by decide) (by decide) (by decide)
      (by decide)).2 (by decide)⟩

/-! ### Concrete probe environments for witnesses -/

/-- Scenario A configuration: secondary bus 2, subordinate bus 5, all-zero
io/memory/prefetchable base and limit registers. -/
def type1A : pci_config_type1 :=
  { primary_bus := 0, secondary_bus := 2, subordinate_bus := 5,
    io_base := 0, io_limit := 0, memory_base := 0, memory_limit := 0,
    prefetchable_memory_base := 0, prefetchable_memory_limit := 0,
    prefetchable_base_upper := 0, prefetchable_limit_upper := 0 }

def cfgA : pci_config_t := { vendor_id := 0x8086, device_id := 0x1237, type1 := type1A }

/-- Environment where every external call succeeds: vendor id 0x8086,
header type 1, configuration `cfgA`, downstream bus handle 7. -/
def envA : ProbeEnv :=
  { pci_read_config_half := fun _ _ => (NO_ERROR, 0x8086),
    pci_read_config_byte := fun _ _ => (NO_ERROR, 1),
    pci_read_config := fun _ => (NO_ERROR, cfgA),
    bus_probe := fun _ _ => (NO_ERROR, 7) }

/-- Environment whose vendor-id register reads as the all-ones sentinel. -/
def envAbsent : ProbeEnv :=
  { envA with pci_read_config_half := fun _ _ => (NO_ERROR, 0xffff) }

/-- Environment whose full configuration read fails with status -5. -/
def envCfgFail : ProbeEnv :=
  { envA with pci_read_config := fun _ => (-5, cfgA) }

/-- Environment whose downstream bus scan fails with status -3. -/
def envBusFail : ProbeEnv :=
  { envA with bus_probe := fun _ _ => (-3, 0) }

/-- Environment whose configuration read succeeds with the
inverted-prefetch configuration and whose downstream bus scan fails. -/
def envPrefInvBusFail : ProbeEnv :=
  { envA with pci_read_config := fun _ => (NO_ERROR, cfgPrefInv),
              bus_probe := fun _ _ => (-3, 0) }

/-- Scenario B configuration: like `cfgA` but secondary bus number 0. -/
def cfgSec0 : pci_config_t := { cfgA with type1 := { type1A with secondary_bus := 0 } }

/-- Environment like `envA` but with secondary bus number 0. -/
def envSec0 : ProbeEnv :=
  { envA with pci_read_config := fun _ => (NO_ERROR, cfgSec0) }

/-- The bridge that `bridge.probe envA locW none` publishes: configuration
`cfgA` with downstream bus handle 7 attached. -/
def brA : bridge :=
  { loc_ := locW, parent_bus_ := none, config_ := cfgA, secondary_bus_ := some 7 }

/-! ### Claims about `bridge::probe` -/

/-- C6: a vendor-id read that fails or returns the all-ones sentinel makes
`bridge::probe` return `ERR_NOT_FOUND` with `*out_bridge` null, after the
vendor-id read and nothing else: no bridge allocation and no further
register reads appear in the trace. -/
theorem probe_not_found_on_absent_vendor (env : ProbeEnv) (loc : pci_location_t)
    (parent : Option busHandle) (s : Int) (v : Nat)
    (h : env.pci_read_config_half loc PCI_CONFIG_VENDOR_ID = (s, v))
    (habs : s ≠ NO_ERROR ∨ v = 0xffff) :
    bridge.probe env loc parent =
      { status := ERR_NOT_FOUND, out_bridge := none, events := [.readVendorId] } := by
  simp only [bridge.probe, h]
  by_cases hs : s = NO_ERROR
  · have hv : v = 0xffff := habs.resolve_left (by simp [hs])
    simp [hs, hv]
  · simp [hs]

/-- C6 witness: the all-ones environment at the concrete location. -/
theorem probe_not_found_on_absent_vendor_witness :
    bridge.probe envAbsent locW none =
      { status := ERR_NOT_FOUND, out_bridge := none, events := [.readVendorId] } :=
  probe_not_found_on_absent_vendor envAbsent locW none NO_ERROR 0xffff rfl (Or.inr rfl)

/-- C7: a failed full configuration read makes `bridge::probe` delete the
just-allocated bridge (alloc and delete both appear in the trace),
propagate the read's error status, and leave `*out_bridge` null. -/
theorem probe_config_read_failure (env : ProbeEnv) (loc : pci_location_t)
    (parent : Option busHandle) (v : Nat) (s3 : Int) (cfg : pci_config_t)
    (h1 : env.pci_read_config_half loc PCI_CONFIG_VENDOR_ID = (NO_ERROR, v))
    (hv : v ≠ 0xffff)
    (h2 : (env.pci_read_config_byte loc PCI_CONFIG_HEADER_TYPE).1 = NO_ERROR)
    (h3 : env.pci_read_config loc = (s3, cfg))
    (hs3 : s3 < 0) :
    bridge.probe env loc parent =
      { status := s3, out_bridge := none,
        events := [.readVendorId, .readHeaderType, .allocBridge, .readConfig,
                   .deleteBridge] } := by
  simp only [bridge.probe, h1, h2, h3]
  simp [hv, hs3]

/-- C7 witness: the failing-configuration-read environment. -/
theorem probe_config_read_failure_witness :
    bridge.probe envCfgFail locW none =
      { status := -5, out_bridge := none,
        events := [.readVendorId, .readHeaderType, .allocBridge, .readConfig,
                   .deleteBridge] } :=
  probe_config_read_failure envCfgFail locW none 0x8086 (-5) cfgA rfl (by decide) rfl rfl
    (by decide)

/-- C1 counterexample: the claim's parenthetical "whose decoded
I/O/memory/prefetchable ranges are valid" fails for the prefetchable
range.  With the inverted-prefetch configuration read successfully and
the downstream scan failing, `bridge::probe` returns -3 with the bridge
published, yet the published bridge's decoded prefetchable range is
negative-width (base `0x500000000` > limit `0x3000fffff`). -/
theorem probe_downstream_failure_prefetch_invalid_cex :
    (bridge.probe envPrefInvBusFail locW none).status = -3 ∧
    (bridge.probe envPrefInvBusFail locW none).out_bridge = some brPrefInv ∧
    brPrefInv.prefetch_range.limit < brPrefInv.prefetch_range.base := by
  decide

/-- C1 amended: when the full configuration read succeeds but the
downstream bus scan fails, `bridge::probe` returns the (negative)
downstream failure status while `*out_bridge` already holds the fully
configured bridge, whose decoded io and memory windows are valid (never
negative-width); the prefetchable window is decoded from the same
snapshot but may be negative-width when the 64-bit upper-extension
registers are inverted.  A failure status does not imply the absence of a
usable bridge. -/
theorem probe_downstream_failure_publishes_bridge (env : ProbeEnv) (loc : pci_location_t)
    (parent : Option busHandle) (v : Nat) (s3 : Int) (cfg : pci_config_t)
    (serr : Int) (nb : busHandle)
    (h1 : env.pci_read_config_half loc PCI_CONFIG_VENDOR_ID = (NO_ERROR, v))
    (hv : v ≠ 0xffff)
    (h2 : (env.pci_read_config_byte loc PCI_CONFIG_HEADER_TYPE).1 = NO_ERROR)
    (h3 : env.pci_read_config loc = (s3, cfg))
    (hs3 : 0 ≤ s3)
    (hsec : 0 < cfg.type1.secondary_bus)
    (hsub : cfg.type1.secondary_bus ≤ cfg.type1.subordinate_bus)
    (h4 : env.bus_probe
        { segment := loc.segment, bus := cfg.type1.secondary_bus, dev := 0, fn := 0 }
        { loc_ := loc, parent_bus_ := parent, config_ := cfg, secondary_bus_ := none } =
        (serr, nb))
    (hserr : serr < 0) :
    (bridge.probe env loc parent).status = serr ∧ serr < 0 ∧
    (bridge.probe env loc parent).out_bridge =
      some { loc_ := loc, parent_bus_ := parent, config_ := cfg, secondary_bus_ := none } ∧
    (bridge.io_range
        { loc_ := loc, parent_bus_ := parent, config_ := cfg, secondary_bus_ := none }).base ≤
      (bridge.io_range
        { loc_ := loc, parent_bus_ := parent, config_ := cfg, secondary_bus_ := none }).limit ∧
    (bridge.mem_range
        { loc_ := loc, parent_bus_ := parent, config_ := cfg, secondary_bus_ := none }).base ≤
      (bridge.mem_range
        { loc_ := loc, parent_bus_ := parent, config_ := cfg, secondary_bus_ := none }).limit := by
  have hs3' : ¬ (s3 < 0) := not_lt.mpr hs3
  have hcond : (0 : Nat) < cfg.type1.secondary_bus ∧
      cfg.type1.secondary_bus ≤ cfg.type1.subordinate_bus := ⟨hsec, hsub⟩
  refine ⟨?_, hserr, ?_, io_range_base_le_limit _, mem_range_base_le_limit _⟩ <;>
    simp [bridge.probe, h1, h2, h3, h4, hv, hs3', bridge.secondary_bus,
      bridge.subordinate_bus, hsec, hsub, hserr]

/-- C1 witness: the failing-bus-scan environment, where probe reports -3
while publishing the configured bridge. -/
theorem probe_downstream_failure_publishes_bridge_witness :
    (bridge.probe envBusFail locW none).status = -3 ∧ (-3 : Int) < 0 ∧
    (bridge.probe envBusFail locW none).out_bridge =
      some { loc_ := locW, parent_bus_ := none, config_ := cfgA, secondary_bus_ := none } ∧
    (bridge.io_range
        { loc_ := locW, parent_bus_ := none, config_ := cfgA, secondary_bus_ := none }).base ≤
      (bridge.io_range
        { loc_ := locW, parent_bus_ := none, config_ := cfgA, secondary_bus_ := none }).limit ∧
    (bridge.mem_range
        { loc_ := locW, parent_bus_ := none, config_ := cfgA, secondary_bus_ := none }).base ≤
      (bridge.mem_range
        { loc_ := locW, parent_bus_ := none, config_ := cfgA, secondary_bus_ := none }).limit :=
  probe_downstream_failure_publishes_bridge envBusFail locW none 0x8086 NO_ERROR cfgA (-3) 0
    rfl (by decide) rfl rfl (by decide) (by decide) (by decide) rfl (by decide)

/-- C9: in a successful downstream recursion the external calls happen in
exactly this order: the bridge's own full configuration read, then the
bus-scan probe of the secondary bus, then attaching the returned bus to
the bridge, then registering it in the global bus list. -/
theorem probe_external_call_order (env : ProbeEnv) (loc : pci_location_t)
    (parent : Option busHandle) (v : Nat) (s3 : Int) (cfg : pci_config_t)
    (s4 : Int) (nb : busHandle)
    (h1 : env.pci_read_config_half loc PCI_CONFIG_VENDOR_ID = (NO_ERROR, v))
    (hv : v ≠ 0xffff)
    (h2 : (env.pci_read_config_byte loc PCI_CONFIG_HEADER_TYPE).1 = NO_ERROR)
    (h3 : env.pci_read_config loc = (s3, cfg))
    (hs3 : 0 ≤ s3)
    (hsec : 0 < cfg.type1.secondary_bus)
    (hsub : cfg.type1.secondary_bus ≤ cfg.type1.subordinate_bus)
    (h4 : env.bus_probe
        { segment := loc.segment, bus := cfg.type1.secondary_bus, dev := 0, fn := 0 }
        { loc_ := loc, parent_bus_ := parent, config_ := cfg, secondary_bus_ := none } =
        (s4, nb))
    (hs4 : 0 ≤ s4) :
    (bridge.probe env loc parent).events =
      [.readVendorId, .readHeaderType, .allocBridge, .readConfig, .probeCapabilities,
       .busProbe loc.segment cfg.type1.secondary_bus, .addBus, .addToGlobalList] := by
  have hs3' : ¬ (s3 < 0) := not_lt.mpr hs3
  have hs4' : ¬ (s4 < 0) := not_lt.mpr hs4
  simp [bridge.probe, h1, h2, h3, h4, hv, hs3', hs4', bridge.secondary_bus,
    bridge.subordinate_bus, hsec, hsub]

/-- C9 witness: the all-success environment produces the full eight-event
trace in program order. -/
theorem probe_external_call_order_witness :
    (bridge.probe envA locW none).events =
      [.readVendorId, .readHeaderType, .allocBridge, .readConfig, .probeCapabilities,
       .busProbe 0 2, .addBus, .addToGlobalList] :=
  probe_external_call_order envA locW none 0x8086 NO_ERROR cfgA NO_ERROR 7
    rfl (by decide) rfl rfl (by decide) (by decide) (by decide) rfl (by decide)

/-- C8: (1) any published bridge has a downstream bus attached only when
its secondary bus number is strictly positive and its subordinate bus
number is at least the secondary bus number; (2) with secondary bus 0 the
probe succeeds, attempts no downstream recursion (no bus-probe event), and
leaves the secondary-bus reference unset. -/
theorem probe_secondary_bus_gating :
    (∀ (env : ProbeEnv) (loc : pci_location_t) (parent : Option busHandle) (b : bridge),
      (bridge.probe env loc parent).out_bridge = some b →
      b.secondary_bus_.isSome = true →
      0 < b.config_.type1.secondary_bus ∧
        b.config_.type1.secondary_bus ≤ b.config_.type1.subordinate_bus) ∧
    (∀ (env : ProbeEnv) (loc : pci_location_t) (parent : Option busHandle) (v : Nat)
      (s3 : Int) (cfg : pci_config_t),
      env.pci_read_config_half loc PCI_CONFIG_VENDOR_ID = (NO_ERROR, v) → v ≠ 0xffff →
      (env.pci_read_config_byte loc PCI_CONFIG_HEADER_TYPE).1 = NO_ERROR →
      env.pci_read_config loc = (s3, cfg) → 0 ≤ s3 →
      cfg.type1.secondary_bus = 0 →
      bridge.probe env loc parent =
        { status := NO_ERROR,
          out_bridge := some { loc_ := loc, parent_bus_ := parent, config_ := cfg,
                               secondary_bus_ := none },
          events := [.readVendorId, .readHeaderType, .allocBridge, .readConfig,
                     .probeCapabilities] }) := by
  constructor
  · intro env loc parent b hout hsome
    simp only [bridge.probe] at hout
    split at hout
    · simp at hout
    · split at hout
      · simp at hout
      · split at hout
        · simp at hout
        · split at hout
          · simp at hout
          · split at hout
            · rename_i hcond
              split at hout
              · simp only [Option.some.injEq] at hout
                subst hout
                simp at hsome
              · simp only [Option.some.injEq] at hout
                subst hout
                exact ⟨hcond.1, hcond.2⟩
            · simp only [Option.some.injEq] at hout
              subst hout
              simp at hsome
  · intro env loc parent v s3 cfg h1 hv h2 h3 hs3 hsec0
    have hs3' : ¬ (s3 < 0) := not_lt.mpr hs3
    simp [bridge.probe, h1, h2, h3, hv, hs3', bridge.secondary_bus, hsec0]

/-- C8 witness: part 1 on the bridge published by the all-success
environment; part 2 on the secondary-bus-0 environment. -/
theorem probe_secondary_bus_gating_witness :
    (0 < brA.config_.type1.secondary_bus ∧
      brA.config_.type1.secondary_bus ≤ brA.config_.type1.subordinate_bus) ∧
    bridge.probe envSec0 locW none =
      { status := NO_ERROR,
        out_bridge := some { loc_ := locW, parent_bus_ := none, config_ := cfgSec0,
                             secondary_bus_ := none },
        events := [.readVendorId, .readHeaderType, .allocBridge, .readConfig,
                   .probeCapabilities] } :=
  ⟨probe_secondary_bus_gating.1 envA locW none brA (by decide) (by decide),
   probe_secondary_bus_gating.2 envSec0 locW none 0x8086 NO_ERROR cfgSec0 rfl (by decide)
     rfl rfl (by decide) (by decide)⟩

/-- C5 counterexample: in scenario A (vendor 0x8086, header type 1,
secondary bus 2, subordinate bus 5, all-zero window registers, downstream
probe succeeding) the probe does succeed and publish the bridge, but the
published bridge's decoded io range is `{0, 0xfff}` — not the canonical
empty range `{0, 0}` the claim asserts. -/
theorem scenario_a_ranges_not_empty :
    (bridge.probe envA locW none).status = NO_ERROR ∧
    (bridge.probe envA locW none).out_bridge = some brA ∧
    brA.io_range = { base := 0, limit := 0xfff } ∧
    brA.io_range ≠ { base := 0, limit := 0 } ∧
    brA.mem_range = { base := 0, limit := 0xfffff } ∧
    brA.prefetch_range = { base := 0, limit := 0xfffff } := by
  decide

/-- C5 amended: in scenario A the probe succeeds, publishes the bridge
with the downstream bus attached, the decoded io/memory/prefetchable
ranges are the zero-based full-granule windows `{0, 0xfff}`, `{0, 0xfffff}`
and `{0, 0xfffff}` (not the canonical empty range), and the downstream
probe is invoked for bus number 2. -/
theorem scenario_a_probe (env : ProbeEnv) (loc : pci_location_t)
    (parent : Option busHandle) (s3 s4 : Int) (nb : busHandle)
    (h1 : env.pci_read_config_half loc PCI_CONFIG_VENDOR_ID = (NO_ERROR, 0x8086))
    (h2 : env.pci_read_config_byte loc PCI_CONFIG_HEADER_TYPE = (NO_ERROR, 1))
    (h3 : env.pci_read_config loc = (s3, cfgA))
    (hs3 : 0 ≤ s3)
    (h4 : env.bus_probe { segment := loc.segment, bus := 2, dev := 0, fn := 0 }
        { loc_ := loc, parent_bus_ := parent, config_ := cfgA, secondary_bus_ := none } =
        (s4, nb))
    (hs4 : 0 ≤ s4) :
    bridge.probe env loc parent =
      { status := NO_ERROR,
        out_bridge := some { loc_ := loc, parent_bus_ := parent, config_ := cfgA,
                             secondary_bus_ := some nb },
        events := [.readVendorId, .readHeaderType, .allocBridge, .readConfig,
                   .probeCapabilities, .busProbe loc.segment 2, .addBus,
                   .addToGlobalList] } ∧
    bridge.io_range
        { loc_ := loc, parent_bus_ := parent, config_ := cfgA, secondary_bus_ := some nb } =
      { base := 0, limit := 0xfff } ∧
    bridge.mem_range
        { loc_ := loc, parent_bus_ := parent, config_ := cfgA, secondary_bus_ := some nb } =
      { base := 0, limit := 0xfffff } ∧
    bridge.prefetch_range
        { loc_ := loc, parent_bus_ := parent, config_ := cfgA, secondary_bus_ := some nb } =
      { base := 0, limit := 0xfffff } ∧
    ProbeEvent.busProbe loc.segment 2 ∈ (bridge.probe env loc parent).events := by
  have hs3' : ¬ (s3 < 0) := not_lt.mpr hs3
  have hs4' : ¬ (s4 < 0) := not_lt.mpr hs4
  have hmain : bridge.probe env loc parent =
      { status := NO_ERROR,
        out_bridge := some { loc_ := loc, parent_bus_ := parent, config_ := cfgA,
                             secondary_bus_ := some nb },
        events := [.readVendorId, .readHeaderType, .allocBridge, .readConfig,
                   .probeCapabilities, .busProbe loc.segment 2, .addBus,
                   .addToGlobalList] } := by
    have hsecval : cfgA.type1.secondary_bus = 2 := rfl
    have hsubval : cfgA.type1.subordinate_bus = 5 := rfl
    simp [bridge.probe, h1, h2, h3, h4, hs3', hs4', bridge.secondary_bus,
      bridge.subordinate_bus, hsecval, hsubval]
  refine ⟨hmain, ?_, ?_, ?_, ?_⟩
  · simp [bridge.io_range, cfgA, type1A]
  · simp [bridge.mem_range, cfgA, type1A]
  · simp [bridge.prefetch_range, cfgA, type1A]
  · rw [hmain]
    simp

/-- C5 witness: the all-success environment at the concrete location. -/
theorem scenario_a_probe_witness :
    bridge.probe envA locW none =
      { status := NO_ERROR,
        out_bridge := some { loc_ := locW, parent_bus_ := none, config_ := cfgA,
                             secondary_bus_ := some 7 },
        events := [.readVendorId, .readHeaderType, .allocBridge, .readConfig,
                   .probeCapabilities, .busProbe 0 2, .addBus, .addToGlobalList] } ∧
    bridge.io_range
        { loc_ := locW, parent_bus_ := none, config_ := cfgA, secondary_bus_ := some 7 } =
      { base := 0, limit := 0xfff } ∧
    bridge.mem_range
        { loc_ := locW, parent_bus_ := none, config_ := cfgA, secondary_bus_ := some 7 } =
      { base := 0, limit := 0xfffff } ∧
    bridge.prefetch_range
        { loc_ := locW, parent_bus_ := none, config_ := cfgA, secondary_bus_ := some 7 } =
      { base := 0, limit := 0xfffff } ∧
    ProbeEvent.busProbe 0 2 ∈ (bridge.probe envA locW none).events :=
  scenario_a_probe envA locW none NO_ERROR NO_ERROR 7 rfl rfl rfl (by decide) rfl (by decide)

end pci
